import Mathlib

/-!
Shallow embedding of the winkerberos security-context negotiation engine
(src/src/kerberos_sspi.c and src/src/winkerberos.c).

Native security-provider calls (AcquireCredentialsHandle,
InitializeSecurityContext, QueryContextAttributes, EncryptMessage,
DecryptMessage, ImpersonateSecurityContext, RevertSecurityContext) are
modelled as explicit result parameters of type `PRes`, and every
operation additionally returns the ordered list of provider calls it
made (`Event` trace), with each call's arguments recorded in the event.
-/

namespace WinKerberos

/-- Bytes are modelled as natural numbers (the source moves opaque
`SEC_CHAR*` buffers; no arithmetic on byte values matters here). -/
abbrev Byte := Nat

/-- Result of a native provider call: `.error code` models a
`SECURITY_STATUS` other than success, carrying the status code. -/
abbrev PRes (α : Type) := Except Nat α

/-- `SECQOP_WRAP_NO_ENCRYPT`: the integrity-only quality of protection
constant. `kerberos_sspi.c` passes exactly this value to
`EncryptMessage` (line 380). -/
def secqopWrapNoEncrypt : Nat := 0x80000001

/-- `ULONG_MAX` on Windows: `ULONG` is a 32-bit unsigned integer; this
is the provider's maximum representable string length
(`_string_too_long`, winkerberos.c lines 47-54). -/
def ulongMax : Nat := 2 ^ 32 - 1

/-- Character count of a string (the `wcslen` / `PyUnicode_GET_LENGTH`
of the converted wide string). -/
def strLen (s : String) : Nat := s.data.length

/-- Length of an optional string; absent strings convert with length 0
(`BufferObject_AsWCHAR` / `StringObject_AsWCHAR` on `None`). -/
def optLen : Option String → Nat
  | none => 0
  | some s => strLen s

/-- Narrow-byte view of a string (the source copies `SEC_CHAR*` data
with `memcpy`). -/
def strBytes (s : String) : List Byte := s.data.map Char.toNat

/-- Return statuses of the engine operations (`AUTH_GSS_COMPLETE`,
`AUTH_GSS_CONTINUE`, `AUTH_GSS_ERROR` in kerberos_sspi.h). -/
inductive AuthStatus where
  | complete
  | continueNeeded
  | error
deriving Repr, DecidableEq

/-- Errors the binding layer signals. `providerError op code` models
`set_krberror(code, op)`; `uninitializedContext` models
`set_uninitialized_context()`; `valueError msg` models
`PyErr_Format(PyExc_ValueError, ...)`; `memoryError` models
`PyErr_SetNone(PyExc_MemoryError)`. -/
inductive SspiError where
  | providerError (op : String) (code : Nat)
  | uninitializedContext
  | valueError (msg : String)
  | memoryError
deriving Repr, DecidableEq

/-- Observable events of one operation, in program order: local
conversions/allocations and native provider calls, the latter with the
arguments the source passes. -/
inductive Event where
  | convertString (field : String)
  | allocState
  | acquireCred (user domain password : Option String)
  | initSecCtx (useCtx : Bool) (token : List Byte)
  | queryNames
  | querySizes
  | encryptMsg (qop : Nat) (trailerCap : Nat) (payload : List Byte) (padCap : Nat)
  | decryptMsg (wire : List Byte)
  | deleteSecCtx
  | freeCredHandle
  | impersonateCtx
  | revertCtx
deriving Repr, DecidableEq

/-- Which events are native security-provider calls (as opposed to
purely local marshalling/allocation work). -/
def Event.isProviderCall : Event → Bool
  | .convertString _ => false
  | .allocState => false
  | _ => true

/-- The `sspi_client_state` struct (kerberos_sspi.h): handle-presence
flags, the opaque handles, and the owned string buffers. The `qop`
field exists because winkerberos.c line 552 reads `state->qop`. -/
structure SspiClientState where
  haveCred : Bool
  haveCtx : Bool
  cred : Nat
  ctx : Nat
  spn : Option String
  response : Option String
  username : Option String
  flags : Nat
  qop : Nat
deriving Repr, DecidableEq

/-- The `sspi_server_state` struct fields used by the server-side
binding functions in winkerberos.c. -/
structure SspiServerState where
  haveCred : Bool
  haveCtx : Bool
  cred : Nat
  ctx : Nat
  response : Option String
  username : Option String
  targetname : Option String
deriving Repr, DecidableEq

/-- Result of one client operation: the returned status, the signalled
error (if any), the state after the call, and the event trace. -/
structure OpResult where
  status : AuthStatus
  err : Option SspiError
  state : SspiClientState
  trace : List Event
deriving Repr, DecidableEq

/-- Result of `sspi_client_init`: status, signalled error, the created
context (if any), and the event trace. -/
structure InitResult where
  status : AuthStatus
  err : Option SspiError
  ctx : Option SspiClientState
  trace : List Event
deriving Repr, DecidableEq

/-! ### Base64 codec

Modelled from the spec (§4.1): the repository's base64.c is not under
src/ (only base64.h is included); the spec describes it as standard
base64 without line wrapping, with the empty string decoding to the
empty byte sequence. -/

/-- Modelled from the spec: value of one character of the standard
base64 alphabet (base64.c is absent from src/). -/
def b64Val (c : Char) : Option Nat :=
  if 'A' ≤ c ∧ c ≤ 'Z' then some (c.toNat - 65)
  else if 'a' ≤ c ∧ c ≤ 'z' then some (c.toNat - 97 + 26)
  else if '0' ≤ c ∧ c ≤ '9' then some (c.toNat - 48 + 52)
  else if c = '+' then some 62
  else if c = '/' then some 63
  else none

/-- Modelled from the spec: one character of the standard base64
alphabet. -/
def b64Char (n : Nat) : Char :=
  "ABCDEFGHIJKLMNOPQRSTUVWXYZabcdefghijklmnopqrstuvwxyz0123456789+/".data.getD n 'A'

/-- Modelled from the spec: standard base64 encoding of a byte list,
with `=` padding and no line wrapping (`base64_encode`). -/
def base64EncodeList : List Byte → List Char
  | [] => []
  | [a] => [b64Char (a / 4), b64Char (a % 4 * 16), '=', '=']
  | [a, b] => [b64Char (a / 4), b64Char (a % 4 * 16 + b / 16), b64Char (b % 16 * 4), '=']
  | a :: b :: c :: rest =>
      b64Char (a / 4) :: b64Char (a % 4 * 16 + b / 16) ::
      b64Char (b % 16 * 4 + c / 64) :: b64Char (c % 64) :: base64EncodeList rest

/-- Modelled from the spec: `base64_encode` as a string producer. -/
def base64Encode (bs : List Byte) : String := String.mk (base64EncodeList bs)

/-- Modelled from the spec: standard base64 decoding (`base64_decode`),
failing on malformed input; the empty string decodes to `[]`. -/
def base64DecodeList : List Char → Option (List Byte)
  | [] => some []
  | [a, b, '=', '='] => do
      let x ← b64Val a
      let y ← b64Val b
      pure [x * 4 + y / 16]
  | [a, b, c, '='] => do
      let x ← b64Val a
      let y ← b64Val b
      let z ← b64Val c
      pure [x * 4 + y / 16, y % 16 * 16 + z / 4]
  | a :: b :: c :: d :: rest => do
      let x ← b64Val a
      let y ← b64Val b
      let z ← b64Val c
      let w ← b64Val d
      let tail ← base64DecodeList rest
      pure ((x * 4 + y / 16) :: (y % 16 * 16 + z / 4) :: (z % 4 * 64 + w) :: tail)
  | _ => none

/-- Modelled from the spec: `base64_decode` on strings. -/
def base64Decode (s : String) : Option (List Byte) := base64DecodeList s.data

/-! ### Principal splitting helpers (winkerberos.c) -/

/-- `wcstok_s(s, L":", &next)`: skip leading colons; if nothing is
left return null; otherwise the token is the maximal colon-free run and
the continuation starts after the single colon that terminated it. -/
def wcstokColon (s : List Char) : Option (List Char × List Char) :=
  let s1 := s.dropWhile (· = ':')
  match s1 with
  | [] => none
  | _ => some (s1.takeWhile (· ≠ ':'), (s1.dropWhile (· ≠ ':')).drop 1)

/-- Hexadecimal value of a character, for percent-decoding. -/
def hexVal (c : Char) : Option Nat :=
  if '0' ≤ c ∧ c ≤ '9' then some (c.toNat - 48)
  else if 'A' ≤ c ∧ c ≤ 'F' then some (c.toNat - 55)
  else if 'a' ≤ c ∧ c ≤ 'f' then some (c.toNat - 87)
  else none

/-- `UrlUnescapeW(..., URL_UNESCAPE_INPLACE)`: decode `%XX` escape
sequences, leaving malformed escapes unchanged. -/
def percentDecode : List Char → List Char
  | [] => []
  | '%' :: a :: b :: rest =>
    match hexVal a, hexVal b with
    | some x, some y => Char.ofNat (16 * x + y) :: percentDecode rest
    | _, _ => '%' :: percentDecode (a :: b :: rest)
  | c :: rest => c :: percentDecode rest

/-- SPN normalization (`auth_sspi_client_init` lines 100-106): if the
service name contains no `/`, the first `@` becomes `/`. -/
def replaceFirstAt : List Char → List Char
  | [] => []
  | c :: rest => if c = '@' then '/' :: rest else c :: replaceFirstAt rest

/-- RFC-2078 `service@host` to SPN `service/host` conversion. -/
def spnNormalize (s : String) : String :=
  if s.data.contains '/' then s else String.mk (replaceFirstAt s.data)

/-! ### Client operations (kerberos_sspi.c) -/

/-- The SASL authorization payload `auth_sspi_client_wrap` synthesizes
when a user is supplied: `[1,0,0,0]` ("no security layer") followed by
the user bytes (lines 347-355). -/
def authzPayload (u : String) : List Byte := 1 :: 0 :: 0 :: 0 :: strBytes u

/-- The plaintext `auth_sspi_client_wrap` encrypts: the synthesized
authorization payload when a user is supplied, otherwise the
base64-decoded data (lines 331-360; the source does not check
`base64_decode` for failure, so a failed decode is modelled by the
empty buffer). -/
def wrapPlaintext (data : String) (user : Option String) : List Byte :=
  match user with
  | some u => authzPayload u
  | none => (base64Decode data).getD []

/-- `auth_sspi_client_step` (kerberos_sspi.c lines 152-251). The
provider's `InitializeSecurityContextA` outcome is `initRes`: on
success it yields the context handle, the output token and whether the
status was `SEC_E_OK` (complete) rather than `SEC_I_CONTINUE_NEEDED`.
`namesRes` is the `QueryContextAttributes(SECPKG_ATTR_NAMES)` outcome
used on completion. Local allocations are assumed to succeed. -/
def authSspiClientStep (state : SspiClientState) (challenge : String)
    (initRes : PRes (Nat × List Byte × Bool)) (namesRes : PRes String) : OpResult :=
  let s0 := { state with response := none }
  let inTok := if s0.haveCtx then (base64Decode challenge).getD [] else []
  let ev := Event.initSecCtx s0.haveCtx inTok
  match initRes with
  | .error code =>
      ⟨.error, some (.providerError "InitializeSecurityContext" code), s0, [ev]⟩
  | .ok (ctxh, outTok, isComplete) =>
      let s1 := { s0 with haveCtx := true, ctx := ctxh }
      let s2 := if outTok.length ≠ 0
        then { s1 with response := some (base64Encode outTok) } else s1
      if isComplete then
        match namesRes with
        | .error code =>
            ⟨.error, some (.providerError "QueryContextAttributes" code), s2,
              [ev, .queryNames]⟩
        | .ok name =>
            ⟨.complete, none, { s2 with username := some name }, [ev, .queryNames]⟩
      else
        ⟨.continueNeeded, none, s2, [ev]⟩

/-- `auth_sspi_client_unwrap` (kerberos_sspi.c lines 253-298). The
provider's `DecryptMessage` outcome is `decryptRes`: the decrypted data
buffer together with the quality of protection the provider would
report; the source passes `NULL` as the `pfQOP` out-parameter (line
281), so the reported value is ignored and `state->qop` is never
written. -/
def authSspiClientUnwrap (state : SspiClientState) (challenge : String)
    (decryptRes : PRes (List Byte × Nat)) : OpResult :=
  let s0 := { state with response := none }
  if s0.haveCtx then
    let wire := (base64Decode challenge).getD []
    match decryptRes with
    | .error code =>
        ⟨.error, some (.providerError "DecryptMessage" code), s0, [.decryptMsg wire]⟩
    | .ok (payload, _qopReported) =>
        let s1 := if payload.length ≠ 0
          then { s0 with response := some (base64Encode payload) } else s0
        ⟨.complete, none, s1, [.decryptMsg wire]⟩
  else
    ⟨.error, some .uninitializedContext, s0, []⟩

/-- `auth_sspi_client_wrap` (kerberos_sspi.c lines 300-407). Note the
signature of the source function: it takes no protection argument, and
line 379-380 passes the constant `SECQOP_WRAP_NO_ENCRYPT` to
`EncryptMessage`. `sizesRes` is the
`QueryContextAttributes(SECPKG_ATTR_SIZES)` outcome
`(cbSecurityTrailer, cbBlockSize)`; `encryptRes` is the
`EncryptMessage` outcome, the token/data/padding buffers with their
final sizes. The output buffer concatenates them in that order and is
base64-encoded into the response. -/
def authSspiClientWrap (state : SspiClientState) (data : String) (user : Option String)
    (sizesRes : PRes (Nat × Nat))
    (encryptRes : PRes (List Byte × List Byte × List Byte)) : OpResult :=
  let s0 := { state with response := none }
  if s0.haveCtx then
    match sizesRes with
    | .error code =>
        ⟨.error, some (.providerError "QueryContextAttributes" code), s0, [.querySizes]⟩
    | .ok (trailerSize, blockSize) =>
        let plaintext := wrapPlaintext data user
        match encryptRes with
        | .error code =>
            ⟨.error, some (.providerError "EncryptMessage" code), s0,
              [.querySizes, .encryptMsg secqopWrapNoEncrypt trailerSize plaintext blockSize]⟩
        | .ok (tok, dat, pad) =>
            let outbuf := tok ++ dat ++ pad
            ⟨.complete, none, { s0 with response := some (base64Encode outbuf) },
              [.querySizes, .encryptMsg secqopWrapNoEncrypt trailerSize plaintext blockSize]⟩
  else
    ⟨.error, some .uninitializedContext, s0, []⟩

/-- `destroy_sspi_client_state` (kerberos_sspi.c lines 24-46): delete
the security context if held, then free the credentials handle if held,
then free the owned string buffers; every guard flag is cleared. -/
def destroySspiClientState (s : SspiClientState) : SspiClientState × List Event :=
  let p1 : SspiClientState × List Event :=
    if s.haveCtx then ({ s with haveCtx := false }, [Event.deleteSecCtx]) else (s, [])
  let p2 : SspiClientState × List Event :=
    if p1.1.haveCred then ({ p1.1 with haveCred := false }, [Event.freeCredHandle])
    else (p1.1, [])
  ({ p2.1 with spn := none, response := none, username := none }, p1.2 ++ p2.2)

/-! ### Client binding layer (winkerberos.c) -/

/-- The string-conversion events `sspi_client_init` performs before its
length checks (winkerberos.c lines 305-309). -/
def initConvertTrace : List Event :=
  [.convertString "service", .convertString "principal", .convertString "user",
   .convertString "domain", .convertString "password"]

/-- The `(user, domain, password)` triple `sspi_client_init` forwards to
credential acquisition (winkerberos.c lines 316-368): when no explicit
user is given and a principal is present, the previously supplied
domain and password are discarded and, if the principal contains a
colon, two `wcstok_s` calls extract the user and password tokens
(failing like the source's `goto memoryerror` when a token is null);
both are percent-decoded. -/
def initCredentials (principal : Option String)
    (user0 domain0 password0 : Option String) :
    Option (Option String × Option String × Option String) :=
  match user0, principal with
  | none, some p =>
      if p.data.contains ':' then
        match wcstokColon p.data with
        | none => none
        | some (t1, rest) =>
          match wcstokColon rest with
          | none => none
          | some (t2, _) =>
              some (some (String.mk (percentDecode t1)), none,
                    some (String.mk (percentDecode t2)))
      else
        some (some (String.mk (percentDecode p.data)), none, none)
  | _, _ => some (user0, domain0, password0)

/-- `sspi_client_init` (winkerberos.c lines 267-421) composed with
`auth_sspi_client_init` (kerberos_sspi.c lines 78-150): the negative
`gssflags` guard runs before any conversion; string conversions run
before the `_string_too_long` checks on user/domain/password; principal
splitting runs next; then the state is allocated and the provider's
`AcquireCredentialsHandleA` is called (outcome `acquireRes`, yielding a
credential handle). `uninitQop` stands for the malloc-uninitialized
`qop` field, which no code path initializes. -/
def sspiClientInit (service : String) (principal : Option String) (flags : Int)
    (user0 domain0 password0 : Option String) (acquireRes : PRes Nat)
    (uninitQop : Nat) : InitResult :=
  if flags < 0 then
    ⟨.error, some (.valueError "gss_flags must be >= 0"), none, []⟩
  else if optLen user0 > ulongMax then
    ⟨.error, some (.valueError "user too large"), none, initConvertTrace⟩
  else if optLen domain0 > ulongMax then
    ⟨.error, some (.valueError "domain too large"), none, initConvertTrace⟩
  else if optLen password0 > ulongMax then
    ⟨.error, some (.valueError "password too large"), none, initConvertTrace⟩
  else
    match initCredentials principal user0 domain0 password0 with
    | none => ⟨.error, some .memoryError, none, initConvertTrace⟩
    | some (user, domain, password) =>
        let tr := initConvertTrace ++ [.allocState, .acquireCred user domain password]
        match acquireRes with
        | .error code =>
            ⟨.error, some (.providerError "AcquireCredentialsHandle" code), none, tr⟩
        | .ok credh =>
            ⟨.complete, none,
              some { haveCred := true, haveCtx := false, cred := credh, ctx := 0,
                     spn := some (spnNormalize service), response := none,
                     username := none, flags := flags.toNat, qop := uninitQop }, tr⟩

/-- `sspi_client_wrap` (winkerberos.c lines 654-693): length checks on
`data` and `user`, then the call to `auth_sspi_client_wrap`. The
`protect` argument is parsed and passed along (line 687) but the
implementation in kerberos_sspi.c has no parameter for it, so it does
not influence the operation. -/
def sspiClientWrap (state : SspiClientState) (data : String) (user : Option String)
    (protect : Int) (sizesRes : PRes (Nat × Nat))
    (encryptRes : PRes (List Byte × List Byte × List Byte)) : OpResult :=
  let _ := protect
  if strLen data > ulongMax then
    ⟨.error, some (.valueError "data too large"), state, []⟩
  else if optLen user + 4 > ulongMax then
    ⟨.error, some (.valueError "user too large"), state, []⟩
  else
    authSspiClientWrap state data user sizesRes encryptRes

/-- `sspi_client_response_conf` (winkerberos.c lines 533-553): returns
whether `state->qop` differs from `SECQOP_WRAP_NO_ENCRYPT`. -/
def sspiClientResponseConf (s : SspiClientState) : Bool :=
  s.qop != secqopWrapNoEncrypt

/-! ### Server impersonation (winkerberos.c) -/

/-- Modelled from the spec: `auth_sspi_server_impersonate` is called
from winkerberos.c line 975 but its definition is not under src/. Spec
§4.4: impersonate delegates directly to the Security Provider and fails
with a `ProviderError` on the underlying failure, otherwise returns
success. -/
def authSspiServerImpersonate (state : SspiServerState) (provRes : PRes Unit) :
    AuthStatus × Option SspiError × List Event :=
  let _ := state
  match provRes with
  | .error code =>
      (.error, some (.providerError "ImpersonateSecurityContext" code), [.impersonateCtx])
  | .ok _ => (.complete, none, [.impersonateCtx])

/-- Modelled from the spec: `auth_sspi_server_revert` is called from
winkerberos.c line 1010 but its definition is not under src/. Spec
§4.4: revert delegates directly to the Security Provider and fails with
a `ProviderError` on the underlying failure, otherwise returns
success. -/
def authSspiServerRevert (state : SspiServerState) (provRes : PRes Unit) :
    AuthStatus × Option SspiError × List Event :=
  let _ := state
  match provRes with
  | .error code =>
      (.error, some (.providerError "RevertSecurityContext" code), [.revertCtx])
  | .ok _ => (.complete, none, [.revertCtx])

/-- `sspi_server_impersonate` (winkerberos.c lines 955-977): delegates
to `auth_sspi_server_impersonate` and returns its status; the signalled
error (if any) accompanies the status. -/
def sspiServerImpersonate (state : SspiServerState) (provRes : PRes Unit) :
    AuthStatus × Option SspiError :=
  let r := authSspiServerImpersonate state provRes
  (r.1, r.2.1)

/-- `sspi_server_revert` (winkerberos.c lines 989-1012): delegates to
`auth_sspi_server_revert` and returns its status; the signalled error
(if any) accompanies the status. -/
def sspiServerRevert (state : SspiServerState) (provRes : PRes Unit) :
    AuthStatus × Option SspiError :=
  let r := authSspiServerRevert state provRes
  (r.1, r.2.1)

/-! ### Concrete states used by the witnesses -/

/-- An established client context: both handles held. -/
def estState : SspiClientState :=
  { haveCred := true, haveCtx := true, cred := 1, ctx := 2, spn := some "mongodb/host",
    response := some "old", username := none, flags := 0, qop := 0 }

/-- A freshly initialized client context: credentials held, no security
context yet. -/
def freshState : SspiClientState :=
  { haveCred := true, haveCtx := false, cred := 1, ctx := 0, spn := some "mongodb/host",
    response := none, username := none, flags := 0, qop := 0 }

/-- A user string longer than `ULONG_MAX` characters. -/
def bigStr : String := String.mk (List.replicate (2 ^ 32) 'a')

/-! ### Theorems -/

/-- C1: the claim says the QOP argument passed to the provider encrypt
call equals confidentiality-required iff `protect` is true. In the
source, `sspi_client_wrap` parses `protect` but `auth_sspi_client_wrap`
has no parameter for it and passes the constant
`SECQOP_WRAP_NO_ENCRYPT` (integrity only) to `EncryptMessage` on every
call, so for every protect value - in particular `protect = 1` - the
encrypt call is made with integrity-only QOP, contradicting the claim
and the `authGSSClientWrap` docstring. -/
theorem sspiClientWrap_qop_ignores_protect (s : SspiClientState) (data : String)
    (user : Option String) (protect : Int) (ts bs : Nat)
    (encryptRes : PRes (List Byte × List Byte × List Byte))
    (hctx : s.haveCtx = true) (hd : strLen data ≤ ulongMax)
    (hu : optLen user + 4 ≤ ulongMax) :
    (sspiClientWrap s data user protect (.ok (ts, bs)) encryptRes).trace =
      [.querySizes, .encryptMsg secqopWrapNoEncrypt ts (wrapPlaintext data user) bs] := by
  have h1 : ¬ strLen data > ulongMax := not_lt.mpr hd
  have h2 : ¬ optLen user + 4 > ulongMax := not_lt.mpr hu
  cases encryptRes <;> simp [sspiClientWrap, authSspiClientWrap, h1, h2, hctx]

/-- C1 witness: on an established context, wrapping with `protect = 1`
still records an encrypt call with `SECQOP_WRAP_NO_ENCRYPT`. -/
theorem sspiClientWrap_qop_ignores_protect_witness :
    estState.haveCtx = true ∧ strLen "" ≤ ulongMax ∧ optLen (none : Option String) + 4 ≤ ulongMax ∧
    (sspiClientWrap estState "" none 1 (.ok (16, 8)) (.ok ([], [], []))).trace =
      [.querySizes, .encryptMsg secqopWrapNoEncrypt 16 (wrapPlaintext "" none) 8] :=
  ⟨rfl, by decide, by decide,
    sspiClientWrap_qop_ignores_protect estState "" none 1 16 8 (.ok ([], [], []))
      rfl (by decide) (by decide)⟩

/-- C2 counterexample: the claim says the stored password is the entire
substring after the first colon, so principal `"alice:pa:ss"` should
yield password `"pa:ss"`; the source's second `wcstok_s` call stops at
the next colon, so the credential acquisition receives password `"pa"`. -/
theorem sspiClientInit_principal_split_counterexample :
    (sspiClientInit "svc" (some "alice:pa:ss") 0 none none none (.ok 1) 0).trace =
      initConvertTrace ++ [.allocState, .acquireCred (some "alice") none (some "pa")] ∧
    (some "pa" : Option String) ≠ some "pa:ss" := by
  exact ⟨by decide, by decide⟩

/-- C2 amended: for a client init with no explicit user and a principal
containing a colon, the stored user is the principal's first nonempty
colon-delimited token and the stored password its second nonempty
colon-delimited token (the text between the first colon and the next
colon or end of string, so `"alice:pa:ss"` yields user `"alice"` and
password `"pa"`), both after percent-decoding; any previously supplied
domain and password are discarded (the stored domain is absent). -/
theorem sspiClientInit_principal_split (service : String) (flags : Int)
    (domain0 password0 : Option String) (acquireRes : PRes Nat) (uq : Nat)
    (p : String) (t1 r1 t2 r2 : List Char)
    (hf : 0 ≤ flags)
    (hdl : optLen domain0 ≤ ulongMax) (hpl : optLen password0 ≤ ulongMax)
    (hc : p.data.contains ':' = true)
    (h1 : wcstokColon p.data = some (t1, r1))
    (h2 : wcstokColon r1 = some (t2, r2)) :
    (sspiClientInit service (some p) flags none domain0 password0 acquireRes uq).trace =
      initConvertTrace ++
        [.allocState,
         .acquireCred (some (String.mk (percentDecode t1))) none
           (some (String.mk (percentDecode t2)))] := by
  have hnf : ¬ flags < 0 := not_lt.mpr hf
  have h0 : ¬ optLen (none : Option String) > ulongMax := by decide
  have hd1 : ¬ optLen domain0 > ulongMax := not_lt.mpr hdl
  have hp1 : ¬ optLen password0 > ulongMax := not_lt.mpr hpl
  have hc2 : ':' ∈ p.data := by simpa using hc
  cases acquireRes <;>
    simp [sspiClientInit, initCredentials, hnf, h0, hd1, hp1, hc2, h1, h2]

/-- C2 witness: the amended statement at principal `"alice:pa:ss"`. -/
theorem sspiClientInit_principal_split_witness :
    (0 ≤ (0 : Int)) ∧
    optLen (none : Option String) ≤ ulongMax ∧
    ("alice:pa:ss").data.contains ':' = true ∧
    wcstokColon ("alice:pa:ss").data = some ("alice".data, "pa:ss".data) ∧
    wcstokColon ("pa:ss").data = some ("pa".data, "ss".data) ∧
    (sspiClientInit "svc" (some "alice:pa:ss") 0 none none none (.ok 1) 0).trace =
      initConvertTrace ++
        [.allocState,
         .acquireCred (some (String.mk (percentDecode "alice".data))) none
           (some (String.mk (percentDecode "pa".data)))] :=
  ⟨le_refl 0, by decide, by decide, by decide, by decide,
    sspiClientInit_principal_split "svc" 0 none none (.ok 1) 0 "alice:pa:ss"
      "alice".data "pa:ss".data "pa".data "ss".data
      (le_refl 0) (by decide) (by decide) (by decide) (by decide) (by decide)⟩

/-- C3: a successful wrap on an established context base64-encodes into
the response the concatenation, in order, of the trailer, data and
padding buffers returned by the provider encrypt call; the plaintext
passed to encrypt is the base64-decoded data when no user is supplied
and `[1,0,0,0] ++ user` bytes when a user is supplied; with provider
sizes trailer 16 and block 8 and plaintext length `L`, the encoded
buffer has length `16 + L + 8`. -/
theorem authSspiClientWrap_framing (s : SspiClientState) (data : String)
    (user : Option String) (d tok dat pad : List Byte)
    (hctx : s.haveCtx = true)
    (hpayload : match user with
      | none => base64Decode data = some d
      | some u => d = authzPayload u)
    (ht : tok.length = 16) (hd : dat.length = d.length) (hpad : pad.length = 8) :
    authSspiClientWrap s data user (.ok (16, 8)) (.ok (tok, dat, pad)) =
      ⟨.complete, none, { s with response := some (base64Encode (tok ++ dat ++ pad)) },
        [.querySizes, .encryptMsg secqopWrapNoEncrypt 16 d 8]⟩ ∧
    (tok ++ dat ++ pad).length = 16 + d.length + 8 := by
  have hw : wrapPlaintext data user = d := by
    cases user with
    | none => simp [wrapPlaintext, hpayload]
    | some u => simp [wrapPlaintext, hpayload]
  constructor
  · simp [authSspiClientWrap, hctx, hw]
  · simp [List.length_append, ht, hd, hpad]
    omega

/-- C3 witness: wrapping user `"u"` with full-capacity mock buffers. -/
theorem authSspiClientWrap_framing_witness :
    estState.haveCtx = true ∧
    (authzPayload "u" : List Byte) = authzPayload "u" ∧
    (List.replicate 16 0 : List Byte).length = 16 ∧
    (List.replicate 5 0 : List Byte).length = (authzPayload "u").length ∧
    (List.replicate 8 0 : List Byte).length = 8 ∧
    (authSspiClientWrap estState "" (some "u") (.ok (16, 8))
        (.ok (List.replicate 16 0, List.replicate 5 0, List.replicate 8 0)) =
      ⟨.complete, none,
        { estState with response := some (base64Encode
            (List.replicate 16 0 ++ List.replicate 5 0 ++ List.replicate 8 0)) },
        [.querySizes, .encryptMsg secqopWrapNoEncrypt 16 (authzPayload "u") 8]⟩ ∧
      (List.replicate 16 0 ++ List.replicate 5 0 ++ (List.replicate 8 0 : List Byte)).length =
        16 + (authzPayload "u").length + 8) :=
  ⟨rfl, rfl, by decide, by decide, by decide,
    authSspiClientWrap_framing estState "" (some "u") (authzPayload "u")
      (List.replicate 16 0) (List.replicate 5 0) (List.replicate 8 0)
      rfl rfl (by decide) (by decide) (by decide)⟩

/-- C4: on a client context whose security context handle is absent,
wrap and unwrap fail with the uninitialized-context error, make no
provider call, and leave every field except the discarded response -
in particular the credential and context handle fields - unchanged. -/
theorem wrapUnwrap_uninitialized (s : SspiClientState) (data ch : String)
    (user : Option String) (sizesRes : PRes (Nat × Nat))
    (encryptRes : PRes (List Byte × List Byte × List Byte))
    (decryptRes : PRes (List Byte × Nat))
    (h : s.haveCtx = false) :
    authSspiClientWrap s data user sizesRes encryptRes =
      ⟨.error, some .uninitializedContext, { s with response := none }, []⟩ ∧
    authSspiClientUnwrap s ch decryptRes =
      ⟨.error, some .uninitializedContext, { s with response := none }, []⟩ := by
  constructor <;> simp [authSspiClientWrap, authSspiClientUnwrap, h]

/-- C4 witness: wrap and unwrap on a freshly initialized context. -/
theorem wrapUnwrap_uninitialized_witness :
    freshState.haveCtx = false ∧
    (authSspiClientWrap freshState "" none (.ok (16, 8)) (.ok ([], [], [])) =
      ⟨.error, some .uninitializedContext, { freshState with response := none }, []⟩ ∧
    authSspiClientUnwrap freshState "" (.ok ([], 0)) =
      ⟨.error, some .uninitializedContext, { freshState with response := none }, []⟩) :=
  ⟨rfl, wrapUnwrap_uninitialized freshState "" "" none (.ok (16, 8)) (.ok ([], [], []))
    (.ok ([], 0)) rfl⟩

/-- C5: the claim says a successful unwrap stores the provider-reported
QOP and `client_response_confidentiality` then reflects it. In the
source, `DecryptMessage` is called with `NULL` for its QOP
out-parameter and `state->qop` is never written: after a successful
unwrap the `qop` field equals whatever it was before the call, for
every reported QOP, so the confidentiality answer is independent of the
unwrap, contradicting the claim and the `authGSSClientResponseConf`
docstring. -/
theorem authSspiClientUnwrap_qop_not_stored (s : SspiClientState) (ch : String)
    (payload : List Byte) (qopReported : Nat) (hctx : s.haveCtx = true) :
    (authSspiClientUnwrap s ch (.ok (payload, qopReported))).status = .complete ∧
    (authSspiClientUnwrap s ch (.ok (payload, qopReported))).state.qop = s.qop ∧
    sspiClientResponseConf (authSspiClientUnwrap s ch (.ok (payload, qopReported))).state =
      sspiClientResponseConf s := by
  refine ⟨?_, ?_, ?_⟩ <;> simp [authSspiClientUnwrap, hctx, sspiClientResponseConf] <;>
    split <;> simp

/-- C5 witness: unwrapping a buffer the provider reports as
confidentiality-protected (reported QOP 0) leaves the stored QOP
untouched. -/
theorem authSspiClientUnwrap_qop_not_stored_witness :
    estState.haveCtx = true ∧
    ((authSspiClientUnwrap estState "AQID" (.ok ([1, 2, 3], 0))).status = .complete ∧
    (authSspiClientUnwrap estState "AQID" (.ok ([1, 2, 3], 0))).state.qop = estState.qop ∧
    sspiClientResponseConf (authSspiClientUnwrap estState "AQID" (.ok ([1, 2, 3], 0))).state =
      sspiClientResponseConf estState) :=
  ⟨rfl, authSspiClientUnwrap_qop_not_stored estState "AQID" [1, 2, 3] 0 rfl⟩

/-- C6: step, wrap and unwrap discard the previous response at the
start of the call, before any provider interaction: their entire
outcome (status, error, state and provider-call trace) is independent
of the response stored on entry; consequently a failed call never
leaves the stale previous response and, after two consecutive
successful steps, the stored response is determined by the second
step's output token alone. -/
theorem responseReplacement (s : SspiClientState) (r : Option String)
    (ch data chu ch1 ch2 : String) (user : Option String)
    (initRes : PRes (Nat × List Byte × Bool)) (namesRes : PRes String)
    (sizesRes : PRes (Nat × Nat)) (encryptRes : PRes (List Byte × List Byte × List Byte))
    (decryptRes : PRes (List Byte × Nat))
    (c1 c2 : Nat) (o1 o2 : List Byte) (b1 b2 : Bool) (n1 n2 : String) :
    authSspiClientStep { s with response := r } ch initRes namesRes =
      authSspiClientStep { s with response := none } ch initRes namesRes ∧
    authSspiClientWrap { s with response := r } data user sizesRes encryptRes =
      authSspiClientWrap { s with response := none } data user sizesRes encryptRes ∧
    authSspiClientUnwrap { s with response := r } chu decryptRes =
      authSspiClientUnwrap { s with response := none } chu decryptRes ∧
    (authSspiClientStep
        (authSspiClientStep s ch1 (.ok (c1, o1, b1)) (.ok n1)).state ch2
        (.ok (c2, o2, b2)) (.ok n2)).state.response =
      (if o2.length ≠ 0 then some (base64Encode o2) else none) := by
  refine ⟨rfl, rfl, rfl, ?_⟩
  cases b1 <;> cases b2 <;> by_cases h1 : o1.length = 0 <;> by_cases h2 : o2.length = 0 <;>
    simp [authSspiClientStep, h1, h2]

/-- C7: destroying a client context deletes the security context handle
(when held) before freeing the credentials handle (when held), each
exactly once; destroying the resulting state again is a no-op that
frees nothing, so repeated destroys release each handle exactly once
and produce no error. -/
theorem destroySspiClientState_idempotent (s : SspiClientState) :
    (destroySspiClientState s).2 =
      (if s.haveCtx then [Event.deleteSecCtx] else []) ++
      (if s.haveCred then [Event.freeCredHandle] else []) ∧
    destroySspiClientState (destroySspiClientState s).1 =
      ((destroySspiClientState s).1, []) ∧
    (destroySspiClientState s).2.count Event.deleteSecCtx =
      (if s.haveCtx then 1 else 0) ∧
    (destroySspiClientState s).2.count Event.freeCredHandle =
      (if s.haveCred then 1 else 0) := by
  obtain ⟨hcred, hctx, cred, ctx, spn, resp, usr, fl, q⟩ := s
  cases hcred <;> cases hctx <;> exact ⟨rfl, rfl, rfl, rfl⟩

/-- C8: when the user, domain or password string given to client init
is longer than the provider's maximum representable length (the 32-bit
`ULONG`), init fails with a value error naming the offending field, no
context is created, and no provider call is made before the failure. -/
theorem sspiClientInit_too_long (service : String) (principal : Option String)
    (flags : Int) (user0 domain0 password0 : Option String)
    (acquireRes : PRes Nat) (uq : Nat)
    (hf : 0 ≤ flags)
    (h : optLen user0 > ulongMax ∨ optLen domain0 > ulongMax ∨
      optLen password0 > ulongMax) :
    (sspiClientInit service principal flags user0 domain0 password0 acquireRes uq).status
      = .error ∧
    (sspiClientInit service principal flags user0 domain0 password0 acquireRes uq).err =
      some (.valueError
        ((if optLen user0 > ulongMax then "user"
          else if optLen domain0 > ulongMax then "domain" else "password") ++
          " too large")) ∧
    (sspiClientInit service principal flags user0 domain0 password0 acquireRes uq).ctx
      = none ∧
    ∀ e ∈ (sspiClientInit service principal flags user0 domain0 password0
      acquireRes uq).trace, e.isProviderCall = false := by
  have hnf : ¬ flags < 0 := not_lt.mpr hf
  by_cases hu : optLen user0 > ulongMax
  · simp [sspiClientInit, hnf, hu, initConvertTrace, Event.isProviderCall]
  · by_cases hdo : optLen domain0 > ulongMax
    · simp [sspiClientInit, hnf, hu, hdo, initConvertTrace, Event.isProviderCall]
    · have hpw : optLen password0 > ulongMax := by
        rcases h with h | h | h
        · exact absurd h hu
        · exact absurd h hdo
        · exact h
      simp [sspiClientInit, hnf, hu, hdo, hpw, initConvertTrace, Event.isProviderCall]

/-- C8 witness: a user string of `2 ^ 32` characters trips the length
guard before any provider call. -/
theorem sspiClientInit_too_long_witness :
    (0 ≤ (0 : Int)) ∧
    (optLen (some bigStr) > ulongMax ∨ optLen (none : Option String) > ulongMax ∨
      optLen (none : Option String) > ulongMax) ∧
    ((sspiClientInit "svc" none 0 (some bigStr) none none (.ok 1) 0).status = .error ∧
    (sspiClientInit "svc" none 0 (some bigStr) none none (.ok 1) 0).err =
      some (.valueError
        ((if optLen (some bigStr) > ulongMax then "user"
          else if optLen (none : Option String) > ulongMax then "domain" else "password") ++
          " too large")) ∧
    (sspiClientInit "svc" none 0 (some bigStr) none none (.ok 1) 0).ctx = none ∧
    ∀ e ∈ (sspiClientInit "svc" none 0 (some bigStr) none none (.ok 1) 0).trace,
      e.isProviderCall = false) :=
  have hbig : optLen (some bigStr) > ulongMax := by
    have h : optLen (some bigStr) = (List.replicate (2 ^ 32) 'a').length := rfl
    rw [h, List.length_replicate]
    norm_num [ulongMax]
  ⟨le_refl 0, Or.inl hbig,
    sspiClientInit_too_long "svc" none 0 (some bigStr) none none (.ok 1) 0
      (le_refl 0) (Or.inl hbig)⟩

/-- C9: server impersonate and revert delegate to the provider; when
the underlying provider call fails the operation returns the error
status with a signalled provider error carrying the failed operation
and status code, and when it succeeds the operation returns the
complete status with no error. -/
theorem sspiServerImpersonateRevert_provider (s : SspiServerState) (code : Nat) :
    sspiServerImpersonate s (.error code) =
      (.error, some (.providerError "ImpersonateSecurityContext" code)) ∧
    sspiServerImpersonate s (.ok ()) = (.complete, none) ∧
    sspiServerRevert s (.error code) =
      (.error, some (.providerError "RevertSecurityContext" code)) ∧
    sspiServerRevert s (.ok ()) = (.complete, none) :=
  ⟨rfl, rfl, rfl, rfl⟩

/-- C10: a client init call with negative gssflags fails with the value
error "gss_flags must be >= 0" with an empty event trace - before any
string conversion, state allocation or provider call - and creates no
context object. -/
theorem sspiClientInit_negative_flags (service : String) (principal : Option String)
    (flags : Int) (user0 domain0 password0 : Option String)
    (acquireRes : PRes Nat) (uq : Nat) (h : flags < 0) :
    sspiClientInit service principal flags user0 domain0 password0 acquireRes uq =
      ⟨.error, some (.valueError "gss_flags must be >= 0"), none, []⟩ := by
  simp [sspiClientInit, h]

/-- C10 witness: init with gssflags `-1`. -/
theorem sspiClientInit_negative_flags_witness :
    ((-1 : Int) < 0) ∧
    sspiClientInit "svc" none (-1) none none none (.ok 1) 0 =
      ⟨.error, some (.valueError "gss_flags must be >= 0"), none, []⟩ :=
  ⟨by norm_num,
    sspiClientInit_negative_flags "svc" none (-1) none none none (.ok 1) 0 (by norm_num)⟩

end WinKerberos
